import Mathlib

/-!
Verification development for the memcpy smart pointer headers
(memcpy_unique_pointer.h and memcpy_shared_pointer.h).

The embedding models the C++ heap explicitly: counter cells and payload
cells live at natural-number addresses in a `Heap` value, and every
pointer field of the C++ classes becomes an `Option Nat` (with `none`
standing for `nullptr`).  Each member function of the headers becomes a
Lean function that threads the heap; a user supplied copy callback is
modelled by its boolean outcome together with, for receive, the staged
byte image it wrote (per the interface contract the callback writes a
verbatim image, so a successful send places exactly the current struct
value in the destination buffer).
-/

/-- Association list lookup over a heap region; models dereferencing an
address.  Returns `none` when the address is not allocated. -/
def alookup {α : Type} : List (Nat × α) → Nat → Option α
  | [], _ => none
  | (k, v) :: t, a => if k = a then some v else alookup t a

/-- Add `d` to the cell stored at address `a`; models the counter
mutations `count++` and `count--` performed through a pointer. -/
def abump : List (Nat × Int) → Nat → Int → List (Nat × Int)
  | [], _, _ => []
  | (k, v) :: t, a, d =>
    if k = a then (k, v + d) :: abump t a d else (k, v) :: abump t a d

/-- Remove the cell at address `a`; models `delete`. -/
def aerase {α : Type} : List (Nat × α) → Nat → List (Nat × α)
  | [], _ => []
  | (k, v) :: t, a => if k = a then aerase t a else (k, v) :: aerase t a

/-- A fresh address strictly above every allocated one. -/
def freshAddr {α : Type} (l : List (Nat × α)) : Nat :=
  (l.map Prod.fst).foldr max 0 + 1

/-- The mutable store: reference counter cells (the
`memcpy_shared_ptr_count` objects, whose payload is their integer
count) and payload cells (the user objects of type `V` managed by the
pointers). -/
structure Heap (V : Type) where
  counters : List (Nat × Int)
  payloads : List (Nat × V)
  deriving DecidableEq

/-- Read the integer stored in the counter object at address `a`
(models `count->get_count()`). -/
def Heap.getCount {V : Type} (h : Heap V) (a : Nat) : Option Int :=
  alookup h.counters a

/-- Models `count->increment()` through a counter address. -/
def Heap.incr {V : Type} (h : Heap V) (a : Nat) : Heap V :=
  { h with counters := abump h.counters a 1 }

/-- Models `count->decrement()` through a counter address. -/
def Heap.decr {V : Type} (h : Heap V) (a : Nat) : Heap V :=
  { h with counters := abump h.counters a (-1) }

/-- Models `delete refCount.count`. -/
def Heap.freeCounter {V : Type} (h : Heap V) (a : Nat) : Heap V :=
  { h with counters := aerase h.counters a }

/-- Models `delete ptr` on a payload pointer; deleting the null pointer
is a no-op, as in C++. -/
def Heap.freePayload {V : Type} (h : Heap V) : Option Nat → Heap V
  | none => h
  | some a => { h with payloads := aerase h.payloads a }

/-- Models `new memcpy_shared_ptr_count{}`: a fresh counter object whose
count starts at 1 (its constructor initialises `count(1)`). -/
def Heap.allocCounter {V : Type} (h : Heap V) : Heap V × Nat :=
  let a := freshAddr h.counters
  ({ h with counters := (a, 1) :: h.counters }, a)

/-- The `memcpy_shared_ptr_object_count` RAII wrapper: it holds only the
field `count`, a possibly null pointer to a counter object. -/
structure memcpy_shared_ptr_object_count where
  count : Option Nat
  deriving DecidableEq

/-- Copy assignment of the counter holder (header lines 73 to 85):
decrement the old counter if any, adopt the counter reference of `obj`,
increment it if non-null. -/
def memcpy_shared_ptr_object_count.assignCopy {V : Type} (h : Heap V)
    (this obj : memcpy_shared_ptr_object_count) :
    Heap V × memcpy_shared_ptr_object_count :=
  let h1 := match this.count with
    | some c => h.decr c
    | none => h
  let h2 := match obj.count with
    | some c => h1.incr c
    | none => h1
  (h2, ⟨obj.count⟩)

/-- Move assignment of the counter holder (header lines 94 to 99):
`count = std::move(obj.count); obj.count = nullptr;` — note that the
current counter reference is overwritten without being decremented.
Returns the new values of `this` and of `obj`. -/
def memcpy_shared_ptr_object_count.assignMove
    (_this obj : memcpy_shared_ptr_object_count) :
    memcpy_shared_ptr_object_count × memcpy_shared_ptr_object_count :=
  (⟨obj.count⟩, ⟨none⟩)

/-- The `memcpy_shared_ptr` class: payload pointer plus embedded counter
holder. -/
structure memcpy_shared_ptr where
  ptr : Option Nat
  refCount : memcpy_shared_ptr_object_count
  deriving DecidableEq

/-- Default constructor: `ptr(nullptr), refCount{}` — no counter is
allocated. -/
def memcpy_shared_ptr.ctorDefault : memcpy_shared_ptr := ⟨none, ⟨none⟩⟩

/-- Constructor from a raw payload pointer: `ptr(ptr), refCount(ptr)`.
The counter holder constructor taking a pointer unconditionally
allocates a fresh counter initialised to 1, even when the raw pointer is
null. -/
def memcpy_shared_ptr.ctorFromRaw {V : Type} (h : Heap V) (p : Option Nat) :
    Heap V × memcpy_shared_ptr :=
  let a := h.allocCounter
  (a.1, ⟨p, ⟨some a.2⟩⟩)

/-- Copy constructor: shares `ptr` and the counter reference, and the
counter holder copy constructor increments the counter when non-null. -/
def memcpy_shared_ptr.ctorCopy {V : Type} (h : Heap V)
    (obj : memcpy_shared_ptr) : Heap V × memcpy_shared_ptr :=
  (match obj.refCount.count with
    | some c => h.incr c
    | none => h,
   obj)

/-- Move constructor: takes over `ptr` and the counter reference without
touching the count; the dying object is left with null `ptr` and null
counter reference.  Returns (destination, source after the move). -/
def memcpy_shared_ptr.ctorMove (obj : memcpy_shared_ptr) :
    memcpy_shared_ptr × memcpy_shared_ptr :=
  (⟨obj.ptr, ⟨obj.refCount.count⟩⟩, ⟨none, ⟨none⟩⟩)

/-- Accessor `get_count()`: 0 when the counter reference is null, else
the value stored in the counter object (reading a live counter; reading
a freed one is undefined behaviour in C++ and is modelled by default
value 0, ruled out by the hypotheses of the theorems below). -/
def memcpy_shared_ptr.get_count {V : Type} (h : Heap V)
    (s : memcpy_shared_ptr) : Int :=
  match s.refCount.count with
  | none => 0
  | some c => (h.getCount c).getD 0

/-- Accessor `get()`. -/
def memcpy_shared_ptr.get (s : memcpy_shared_ptr) : Option Nat := s.ptr

/-- Internal cleanup (header lines 228 to 246): if a counter is
referenced and its value is at most 1, delete the counter and the
payload and null both fields; if the counter value is above 1 do
nothing; if no counter is referenced, delete the payload directly. -/
def memcpy_shared_ptr.cleanup {V : Type} (h : Heap V)
    (s : memcpy_shared_ptr) : Heap V × memcpy_shared_ptr :=
  match s.refCount.count with
  | some c =>
    if (h.getCount c).getD 0 ≤ 1 then
      ((h.freeCounter c).freePayload s.ptr, ⟨none, ⟨none⟩⟩)
    else
      (h, s)
  | none => (h.freePayload s.ptr, ⟨none, ⟨none⟩⟩)

/-- Copy assignment (header lines 134 to 143): guarded by the counter
references being different; then cleanup of the current state, adoption
of the payload pointer, and counter holder copy assignment. -/
def memcpy_shared_ptr.assignCopy {V : Type} (h : Heap V)
    (this obj : memcpy_shared_ptr) : Heap V × memcpy_shared_ptr :=
  if this.refCount.count = obj.refCount.count then
    (h, this)
  else
    let hc := memcpy_shared_ptr.cleanup h this
    let ha := memcpy_shared_ptr_object_count.assignCopy hc.1 hc.2.refCount
      obj.refCount
    (ha.1, ⟨obj.ptr, ha.2⟩)

/-- Move assignment (header lines 151 to 161): guarded by the counter
references being different; then cleanup of the current state, adoption
of the payload pointer, counter holder move assignment, and nulling of
the source payload pointer.  Returns (heap, this after, obj after). -/
def memcpy_shared_ptr.assignMove {V : Type} (h : Heap V)
    (this obj : memcpy_shared_ptr) :
    Heap V × memcpy_shared_ptr × memcpy_shared_ptr :=
  if this.refCount.count = obj.refCount.count then
    (h, this, obj)
  else
    let hc := memcpy_shared_ptr.cleanup h this
    let m := memcpy_shared_ptr_object_count.assignMove hc.2.refCount
      obj.refCount
    (hc.1, ⟨obj.ptr, m.1⟩, ⟨none, m.2⟩)

/-- The send hook (header lines 180 to 193).  The copy callback runs
first, on the current bytes; `ok` is its outcome and the returned
`Option memcpy_shared_ptr` is the image it left in the destination
buffer on success (a verbatim copy of the current struct, per the
transport interface contract).  On success the counter, when non-null,
is incremented to register the new bitwise owner; the struct itself is
untouched. -/
def memcpy_shared_ptr.memcpy_send {V : Type} (h : Heap V)
    (s : memcpy_shared_ptr) (ok : Bool) :
    (Heap V × memcpy_shared_ptr) × Bool × Option memcpy_shared_ptr :=
  if ok then
    ((match s.refCount.count with
        | some c => h.incr c
        | none => h,
      s), true, some s)
  else
    ((h, s), false, none)

/-- The receive hook (header lines 199 to 216).  `staged` is the byte
image the copy callback wrote into the local staging buffer and `ok` its
outcome.  On success the current counter, when non-null, is decremented,
then `cleanup` runs on the current fields, and finally the whole struct
is overwritten by the staged bytes.  On failure nothing changes. -/
def memcpy_shared_ptr.memcpy_receive {V : Type} (h : Heap V)
    (s : memcpy_shared_ptr) (ok : Bool) (staged : memcpy_shared_ptr) :
    (Heap V × memcpy_shared_ptr) × Bool :=
  if ok then
    let h1 := match s.refCount.count with
      | some c => h.decr c
      | none => h
    let hc := memcpy_shared_ptr.cleanup h1 s
    ((hc.1, staged), true)
  else
    ((h, s), false)

/-- The `memcpy_unique_ptr` class: a single possibly null payload
pointer. -/
structure memcpy_unique_ptr where
  ptr : Option Nat
  deriving DecidableEq

/-- The send hook of the exclusive pointer (header lines 70 to 81): on
callback success the payload pointer is set to null (no destructor runs,
so the heap is untouched) and the image written to the destination is
the prior struct value; on failure nothing changes. -/
def memcpy_unique_ptr.memcpy_send {V : Type} (h : Heap V)
    (s : memcpy_unique_ptr) (ok : Bool) :
    (Heap V × memcpy_unique_ptr) × Bool × Option memcpy_unique_ptr :=
  if ok then
    ((h, ⟨none⟩), true, some s)
  else
    ((h, s), false, none)

/-- The receive hook of the exclusive pointer (header lines 91 to 108):
on callback success the current payload is deleted and the struct is
overwritten by the staged image; on failure nothing changes. -/
def memcpy_unique_ptr.memcpy_receive {V : Type} (h : Heap V)
    (s : memcpy_unique_ptr) (ok : Bool) (staged : memcpy_unique_ptr) :
    (Heap V × memcpy_unique_ptr) × Bool :=
  if ok then
    ((h.freePayload s.ptr, staged), true)
  else
    ((h, s), false)

/-- `release()` (header lines 113 to 118): return the payload pointer
and null the field; no destructor runs, so the heap is untouched. -/
def memcpy_unique_ptr.release {V : Type} (h : Heap V)
    (s : memcpy_unique_ptr) : (Heap V × memcpy_unique_ptr) × Option Nat :=
  ((h, ⟨none⟩), s.ptr)

/-- Bumping an address and reading it back adds the increment to the
stored value. -/
theorem alookup_abump_self (l : List (Nat × Int)) (a : Nat) (d : Int) :
    alookup (abump l a d) a = (alookup l a).map (fun v => v + d) := by
  induction l with
  | nil => simp [alookup, abump]
  | cons p t ih =>
    obtain ⟨k, v⟩ := p
    by_cases hk : k = a
    · simp [alookup, abump, hk]
    · simp [alookup, abump, hk, ih]

/-- Bumping one address leaves every other address unchanged. -/
theorem alookup_abump_ne (l : List (Nat × Int)) (a b : Nat) (d : Int)
    (hne : a ≠ b) : alookup (abump l b d) a = alookup l a := by
  induction l with
  | nil => simp [alookup, abump]
  | cons p t ih =>
    obtain ⟨k, v⟩ := p
    by_cases hk : k = b
    · subst hk
      simp [alookup, abump, Ne.symm hne, ih]
    · by_cases hk2 : k = a
      · simp [alookup, abump, hk, hk2, hne]
      · simp [alookup, abump, hk, hk2, ih]

/-- Erasing an address removes it from the region. -/
theorem alookup_aerase_self {α : Type} (l : List (Nat × α)) (a : Nat) :
    alookup (aerase l a) a = none := by
  induction l with
  | nil => simp [alookup, aerase]
  | cons p t ih =>
    obtain ⟨k, v⟩ := p
    by_cases hk : k = a
    · simp [aerase, hk, ih]
    · simp [alookup, aerase, hk, ih]

/-- Erasing one address leaves every other address unchanged. -/
theorem alookup_aerase_ne {α : Type} (l : List (Nat × α)) (a b : Nat)
    (hne : a ≠ b) : alookup (aerase l b) a = alookup l a := by
  induction l with
  | nil => simp [alookup, aerase]
  | cons p t ih =>
    obtain ⟨k, v⟩ := p
    by_cases hk : k = b
    · subst hk
      simp [alookup, aerase, Ne.symm hne, ih]
    · by_cases hk2 : k = a
      · simp [alookup, aerase, hk, hk2, hne]
      · simp [alookup, aerase, hk, hk2, ih]

/-- Counter frame of cleanup: any counter address other than the one the
instance references is untouched by cleanup. -/
theorem cleanup_getCount_other {V : Type} (h : Heap V)
    (s : memcpy_shared_ptr) (b : Nat)
    (hb : some b ≠ s.refCount.count) :
    (memcpy_shared_ptr.cleanup h s).1.getCount b = h.getCount b := by
  unfold memcpy_shared_ptr.cleanup
  cases hdc : s.refCount.count with
  | none =>
    cases hp : s.ptr <;>
      simp [Heap.freePayload, Heap.getCount]
  | some a =>
    have hba : b ≠ a := by
      intro hcon
      exact hb (by rw [hcon, hdc])
    by_cases hle : (h.getCount a).getD 0 ≤ 1
    · have hle2 : (alookup h.counters a).getD 0 ≤ 1 := hle
      cases hp : s.ptr <;>
        simp [hle, hle2, Heap.freePayload, Heap.freeCounter, Heap.getCount,
          alookup_aerase_ne _ _ _ hba]
    · simp [hle]

/-- C3: when the supplied copy callback reports failure, each of the
four hooks — exclusive send, exclusive receive, shared send, shared
receive — returns false and performs no state mutation: the heap (hence
every counter value and payload) and the instance itself are exactly as
before the call. -/
theorem C3_failed_copy_no_mutation {V : Type} (h : Heap V)
    (su iu : memcpy_unique_ptr) (ss is : memcpy_shared_ptr) :
    memcpy_unique_ptr.memcpy_send h su false = ((h, su), false, none) ∧
    memcpy_unique_ptr.memcpy_receive h su false iu = ((h, su), false) ∧
    memcpy_shared_ptr.memcpy_send h ss false = ((h, ss), false, none) ∧
    memcpy_shared_ptr.memcpy_receive h ss false is = ((h, ss), false) :=
  ⟨rfl, rfl, rfl, rfl⟩

/-- C4: on the exclusive pointer, a send whose copy function succeeds
clears the payload pointer to null, leaves the heap untouched (the
destructor of the payload does not run) and returns true together with
the byte image of the prior state; a send whose copy function fails
changes nothing and returns false. -/
theorem C4_unique_send_clears_without_destroy {V : Type} (h : Heap V)
    (s : memcpy_unique_ptr) :
    memcpy_unique_ptr.memcpy_send h s true = ((h, ⟨none⟩), true, some s) ∧
    memcpy_unique_ptr.memcpy_send h s false = ((h, s), false, none) :=
  ⟨rfl, rfl⟩

/-- C8: release returns the payload pointer the instance held (null when
empty), empties the instance, and leaves the heap untouched — no
destructor runs, so deallocation is now up to the caller. -/
theorem C8_release_returns_and_empties {V : Type} (h : Heap V)
    (s : memcpy_unique_ptr) :
    (memcpy_unique_ptr.release h s).2 = s.ptr ∧
    (memcpy_unique_ptr.release h s).1.2 = ⟨none⟩ ∧
    (memcpy_unique_ptr.release h s).1.1 = h :=
  ⟨rfl, rfl, rfl⟩

/-- C9: constructing a shared pointer from a null raw payload pointer
still allocates a counter initialised to 1, so the instance reports
get_count 1 while get returns null; a default constructed instance and a
moved-from instance report count 0. -/
theorem C9_null_payload_counter_one {V : Type} (h : Heap V) :
    (memcpy_shared_ptr.ctorFromRaw h none).2.get = none ∧
    memcpy_shared_ptr.get_count (memcpy_shared_ptr.ctorFromRaw h none).1
      (memcpy_shared_ptr.ctorFromRaw h none).2 = 1 ∧
    memcpy_shared_ptr.get_count h memcpy_shared_ptr.ctorDefault = 0 ∧
    (∀ s : memcpy_shared_ptr,
      (memcpy_shared_ptr.ctorMove s).2.get = none ∧
      memcpy_shared_ptr.get_count h (memcpy_shared_ptr.ctorMove s).2 = 0) := by
  refine ⟨rfl, ?_, rfl, fun s => ⟨rfl, rfl⟩⟩
  simp [memcpy_shared_ptr.ctorFromRaw, memcpy_shared_ptr.get_count,
    Heap.allocCounter, Heap.getCount, alookup]

/-- C10: when two shared pointer instances reference the same counter —
in particular an instance and itself — copy assignment and move
assignment are complete no-ops: the heap (counter values and payloads)
and both instances are returned unchanged, so move assignment from such
a source does not empty it. -/
theorem C10_same_counter_assign_noop {V : Type} (h : Heap V)
    (dst src : memcpy_shared_ptr)
    (heq : dst.refCount.count = src.refCount.count) :
    memcpy_shared_ptr.assignCopy h dst src = (h, dst) ∧
    memcpy_shared_ptr.assignMove h dst src = (h, dst, src) := by
  constructor
  · unfold memcpy_shared_ptr.assignCopy
    rw [if_pos heq]
  · unfold memcpy_shared_ptr.assignMove
    rw [if_pos heq]

/-- C10 witness: self-assignment of an instance owning payload 1 through
counter 1 at value 2 leaves heap and instance unchanged. -/
theorem C10_same_counter_assign_noop_witness :
    memcpy_shared_ptr.assignCopy (⟨[(1, 2)], [(1, (5 : Int))]⟩ : Heap Int)
      ⟨some 1, ⟨some 1⟩⟩ ⟨some 1, ⟨some 1⟩⟩ =
      (⟨[(1, 2)], [(1, 5)]⟩, ⟨some 1, ⟨some 1⟩⟩) ∧
    memcpy_shared_ptr.assignMove (⟨[(1, 2)], [(1, (5 : Int))]⟩ : Heap Int)
      ⟨some 1, ⟨some 1⟩⟩ ⟨some 1, ⟨some 1⟩⟩ =
      (⟨[(1, 2)], [(1, 5)]⟩, ⟨some 1, ⟨some 1⟩⟩, ⟨some 1, ⟨some 1⟩⟩) :=
  C10_same_counter_assign_noop (⟨[(1, 2)], [(1, (5 : Int))]⟩ : Heap Int)
    ⟨some 1, ⟨some 1⟩⟩ ⟨some 1, ⟨some 1⟩⟩ rfl

/-- C5: a successful shared send on an instance whose counter reference
is non-null increments that counter by exactly one and changes nothing
else: the instance struct, every other counter, and every payload are
unchanged, the call returns true, and the image written out is the prior
struct — the instance remains a valid owner. -/
theorem C5_shared_send_increments {V : Type} (h : Heap V)
    (s : memcpy_shared_ptr) (c : Nat) (n : Int)
    (hc : s.refCount.count = some c) (hn : h.getCount c = some n) :
    (memcpy_shared_ptr.memcpy_send h s true).2.1 = true ∧
    (memcpy_shared_ptr.memcpy_send h s true).1.2 = s ∧
    (memcpy_shared_ptr.memcpy_send h s true).1.1.getCount c = some (n + 1) ∧
    (∀ b : Nat, b ≠ c →
      (memcpy_shared_ptr.memcpy_send h s true).1.1.getCount b =
        h.getCount b) ∧
    (memcpy_shared_ptr.memcpy_send h s true).1.1.payloads = h.payloads ∧
    (memcpy_shared_ptr.memcpy_send h s true).2.2 = some s := by
  have e : memcpy_shared_ptr.memcpy_send h s true = ((h.incr c, s), true, some s) := by
    simp [memcpy_shared_ptr.memcpy_send, hc]
  rw [e]
  have hn2 : alookup h.counters c = some n := hn
  refine ⟨rfl, rfl, ?_, ?_, rfl, rfl⟩
  · simp [Heap.getCount, Heap.incr, alookup_abump_self, hn2]
  · intro b hb
    simp only [Heap.getCount, Heap.incr]
    exact alookup_abump_ne _ _ _ _ hb

/-- C5 witness: on a singleton heap with counter 1 at value 1, a
successful send returns true and raises the counter to 2. -/
theorem C5_shared_send_increments_witness :
    (memcpy_shared_ptr.memcpy_send (⟨[(1, 1)], []⟩ : Heap Int)
      ⟨some 1, ⟨some 1⟩⟩ true).2.1 = true ∧
    (memcpy_shared_ptr.memcpy_send (⟨[(1, 1)], []⟩ : Heap Int)
      ⟨some 1, ⟨some 1⟩⟩ true).1.1.getCount 1 = some (1 + 1) :=
  ⟨(C5_shared_send_increments (⟨[(1, 1)], []⟩ : Heap Int)
      ⟨some 1, ⟨some 1⟩⟩ 1 1 rfl rfl).1,
   (C5_shared_send_increments (⟨[(1, 1)], []⟩ : Heap Int)
      ⟨some 1, ⟨some 1⟩⟩ 1 1 rfl rfl).2.2.1⟩

/-- C6 counterexample: move assignment between two instances that share
the same counter (here two co-owners of payload 1, counter 1 at value 2)
is a no-op, so the source keeps its payload pointer and still reports
count 2 — refuting the claim that every move leaves the source with
count 0 and a null payload. -/
theorem C6_move_assign_same_counter_source_kept :
    (memcpy_shared_ptr.assignMove (⟨[(1, 2)], [(1, (5 : Int))]⟩ : Heap Int)
      ⟨some 1, ⟨some 1⟩⟩ ⟨some 1, ⟨some 1⟩⟩).2.2.ptr = some 1 ∧
    memcpy_shared_ptr.get_count
      (memcpy_shared_ptr.assignMove (⟨[(1, 2)], [(1, (5 : Int))]⟩ : Heap Int)
        ⟨some 1, ⟨some 1⟩⟩ ⟨some 1, ⟨some 1⟩⟩).1
      (memcpy_shared_ptr.assignMove (⟨[(1, 2)], [(1, (5 : Int))]⟩ : Heap Int)
        ⟨some 1, ⟨some 1⟩⟩ ⟨some 1, ⟨some 1⟩⟩).2.2 = 2 := by
  decide

/-- C6 (amended): move construction always, and move assignment whenever
the two instances reference different counters, leave the source with
count 0 and a null payload pointer, and the destination afterwards holds
the payload pointer the source had and reports the count the source
reported before the move; move assignment between instances referencing
the same counter is a no-op that leaves the source untouched. -/
theorem C6_move_empties_source {V : Type} (h : Heap V)
    (dst src : memcpy_shared_ptr)
    (hne : dst.refCount.count ≠ src.refCount.count) :
    (memcpy_shared_ptr.ctorMove src).2.ptr = none ∧
    memcpy_shared_ptr.get_count h (memcpy_shared_ptr.ctorMove src).2 = 0 ∧
    (memcpy_shared_ptr.ctorMove src).1.ptr = src.ptr ∧
    memcpy_shared_ptr.get_count h (memcpy_shared_ptr.ctorMove src).1 =
      memcpy_shared_ptr.get_count h src ∧
    (memcpy_shared_ptr.assignMove h dst src).2.2 = ⟨none, ⟨none⟩⟩ ∧
    memcpy_shared_ptr.get_count (memcpy_shared_ptr.assignMove h dst src).1
      (memcpy_shared_ptr.assignMove h dst src).2.2 = 0 ∧
    (memcpy_shared_ptr.assignMove h dst src).2.1.ptr = src.ptr ∧
    memcpy_shared_ptr.get_count (memcpy_shared_ptr.assignMove h dst src).1
      (memcpy_shared_ptr.assignMove h dst src).2.1 =
      memcpy_shared_ptr.get_count h src := by
  have e : memcpy_shared_ptr.assignMove h dst src =
      ((memcpy_shared_ptr.cleanup h dst).1,
       ⟨src.ptr, ⟨src.refCount.count⟩⟩, ⟨none, ⟨none⟩⟩) := by
    unfold memcpy_shared_ptr.assignMove
    rw [if_neg hne]
    rfl
  rw [e]
  refine ⟨rfl, rfl, rfl, rfl, rfl, rfl, rfl, ?_⟩
  cases hsc : src.refCount.count with
  | none => simp [memcpy_shared_ptr.get_count, hsc]
  | some b =>
    have hb : some b ≠ dst.refCount.count := by
      intro hcon
      exact hne (by rw [← hcon, hsc])
    simp [memcpy_shared_ptr.get_count, hsc,
      cleanup_getCount_other h dst b hb]

/-- C6 witness: moving from an owner of payload 1 (counter 1 at value 1)
into an empty instance empties the source and the destination reports
the prior count. -/
theorem C6_move_empties_source_witness :
    (memcpy_shared_ptr.assignMove (⟨[(1, 1)], [(1, (7 : Int))]⟩ : Heap Int)
      ⟨none, ⟨none⟩⟩ ⟨some 1, ⟨some 1⟩⟩).2.2 = ⟨none, ⟨none⟩⟩ ∧
    memcpy_shared_ptr.get_count
      (memcpy_shared_ptr.assignMove (⟨[(1, 1)], [(1, (7 : Int))]⟩ : Heap Int)
        ⟨none, ⟨none⟩⟩ ⟨some 1, ⟨some 1⟩⟩).1
      (memcpy_shared_ptr.assignMove (⟨[(1, 1)], [(1, (7 : Int))]⟩ : Heap Int)
        ⟨none, ⟨none⟩⟩ ⟨some 1, ⟨some 1⟩⟩).2.1 =
      memcpy_shared_ptr.get_count (⟨[(1, 1)], [(1, (7 : Int))]⟩ : Heap Int)
        ⟨some 1, ⟨some 1⟩⟩ :=
  ⟨(C6_move_empties_source (⟨[(1, 1)], [(1, (7 : Int))]⟩ : Heap Int)
      ⟨none, ⟨none⟩⟩ ⟨some 1, ⟨some 1⟩⟩ (by decide)).2.2.2.2.1,
   (C6_move_empties_source (⟨[(1, 1)], [(1, (7 : Int))]⟩ : Heap Int)
      ⟨none, ⟨none⟩⟩ ⟨some 1, ⟨some 1⟩⟩ (by decide)).2.2.2.2.2.2.2⟩

/-- C1 counterexample: the receiving instance references counter 1 at
value 2, so one other owner slot still claims payload 1 — the decrement
does not make this instance the last owner — yet a successful receive
frees both payload 1 and counter 1 (they are gone from the heap), so
cleanup is not run only in the last-owner case. -/
theorem C1_receive_frees_with_other_owner :
    memcpy_shared_ptr.get_count
      (⟨[(1, 2), (2, 2)], [(1, (5 : Int)), (2, 70)]⟩ : Heap Int)
      ⟨some 1, ⟨some 1⟩⟩ = 2 ∧
    (memcpy_shared_ptr.memcpy_receive
      (⟨[(1, 2), (2, 2)], [(1, (5 : Int)), (2, 70)]⟩ : Heap Int)
      ⟨some 1, ⟨some 1⟩⟩ true ⟨some 2, ⟨some 2⟩⟩).2 = true ∧
    (memcpy_shared_ptr.memcpy_receive
      (⟨[(1, 2), (2, 2)], [(1, (5 : Int)), (2, 70)]⟩ : Heap Int)
      ⟨some 1, ⟨some 1⟩⟩ true ⟨some 2, ⟨some 2⟩⟩).1.1.getCount 1 = none ∧
    alookup (memcpy_shared_ptr.memcpy_receive
      (⟨[(1, 2), (2, 2)], [(1, (5 : Int)), (2, 70)]⟩ : Heap Int)
      ⟨some 1, ⟨some 1⟩⟩ true ⟨some 2, ⟨some 2⟩⟩).1.1.payloads 1 = none := by
  decide

/-- C1 (amended): on a successful receive, the instance decrements its
current counter when it references one; cleanup then frees the current
payload and counter exactly when the decremented value is at most 1 —
which includes the case where one other owner slot still remains — and
finally the whole representation is overwritten by the staged bytes,
adopting the sent image verbatim, with no count change on any other
counter and no other payload touched. -/
theorem C1_receive_decrements_then_overwrites {V : Type} (h : Heap V)
    (s staged : memcpy_shared_ptr) (c : Nat) (n : Int)
    (hc : s.refCount.count = some c) (hn : h.getCount c = some n) :
    (memcpy_shared_ptr.memcpy_receive h s true staged).2 = true ∧
    (memcpy_shared_ptr.memcpy_receive h s true staged).1.2 = staged ∧
    (n - 1 ≤ 1 →
      (memcpy_shared_ptr.memcpy_receive h s true staged).1.1.getCount c =
        none ∧
      (∀ p : Nat, s.ptr = some p →
        alookup (memcpy_shared_ptr.memcpy_receive h s true
          staged).1.1.payloads p = none)) ∧
    (1 < n - 1 →
      (memcpy_shared_ptr.memcpy_receive h s true staged).1.1.getCount c =
        some (n - 1) ∧
      (memcpy_shared_ptr.memcpy_receive h s true staged).1.1.payloads =
        h.payloads) ∧
    (∀ b : Nat, b ≠ c →
      (memcpy_shared_ptr.memcpy_receive h s true staged).1.1.getCount b =
        h.getCount b) ∧
    (∀ q : Nat, s.ptr ≠ some q →
      alookup (memcpy_shared_ptr.memcpy_receive h s true staged).1.1.payloads
        q = alookup h.payloads q) := by
  have hn2 : alookup h.counters c = some n := hn
  have hd : alookup (abump h.counters c (-1)) c = some (n + -1) := by
    rw [alookup_abump_self, hn2]
    rfl
  have hd2 : alookup (abump h.counters c (-1)) c = some (n - 1) := by
    rw [hd, Int.add_neg_one]
  by_cases hb : n - 1 ≤ 1
  · have e : memcpy_shared_ptr.memcpy_receive h s true staged =
        ((((h.decr c).freeCounter c).freePayload s.ptr, staged), true) := by
      simp [memcpy_shared_ptr.memcpy_receive, memcpy_shared_ptr.cleanup, hc,
        Heap.getCount, Heap.decr, hd2, hb]
    rw [e]
    refine ⟨rfl, rfl, fun _ => ⟨?_, ?_⟩, fun hlt => absurd hb (not_le.mpr hlt),
      ?_, ?_⟩
    · cases hp : s.ptr <;>
        simp [Heap.freePayload, Heap.freeCounter, Heap.decr, Heap.getCount,
          alookup_aerase_self]
    · intro p hp
      rw [hp]
      simp [Heap.freePayload, Heap.freeCounter, Heap.decr,
        alookup_aerase_self]
    · intro b hbc
      cases hp : s.ptr <;>
        simp [Heap.freePayload, Heap.freeCounter, Heap.decr, Heap.getCount,
          alookup_aerase_ne _ _ _ hbc, alookup_abump_ne _ _ _ _ hbc]
    · intro q hq
      cases hp : s.ptr with
      | none => simp [Heap.freePayload, Heap.freeCounter, Heap.decr]
      | some p =>
        have hpq : q ≠ p := by
          intro hcon
          exact hq (by rw [hcon, hp])
        simp [Heap.freePayload, Heap.freeCounter, Heap.decr,
          alookup_aerase_ne _ _ _ hpq]
  · have e : memcpy_shared_ptr.memcpy_receive h s true staged =
        ((h.decr c, staged), true) := by
      simp [memcpy_shared_ptr.memcpy_receive, memcpy_shared_ptr.cleanup, hc,
        Heap.getCount, Heap.decr, hd2, hb]
    rw [e]
    refine ⟨rfl, rfl, fun hle => absurd hle hb, fun _ => ⟨?_, rfl⟩, ?_, ?_⟩
    · simp [Heap.getCount, Heap.decr, hd2]
    · intro b hbc
      simp only [Heap.getCount, Heap.decr]
      exact alookup_abump_ne _ _ _ _ hbc
    · intro q hq
      rfl

/-- C1 witness: receiving over a sole-owner instance (counter 1 at value
1) frees the old payload and counter and adopts the staged image. -/
theorem C1_receive_decrements_then_overwrites_witness :
    (memcpy_shared_ptr.memcpy_receive (⟨[(1, 1), (2, 2)],
      [(1, (5 : Int)), (2, 70)]⟩ : Heap Int)
      ⟨some 1, ⟨some 1⟩⟩ true ⟨some 2, ⟨some 2⟩⟩).2 = true ∧
    (memcpy_shared_ptr.memcpy_receive (⟨[(1, 1), (2, 2)],
      [(1, (5 : Int)), (2, 70)]⟩ : Heap Int)
      ⟨some 1, ⟨some 1⟩⟩ true ⟨some 2, ⟨some 2⟩⟩).1.2 =
      ⟨some 2, ⟨some 2⟩⟩ ∧
    (memcpy_shared_ptr.memcpy_receive (⟨[(1, 1), (2, 2)],
      [(1, (5 : Int)), (2, 70)]⟩ : Heap Int)
      ⟨some 1, ⟨some 1⟩⟩ true ⟨some 2, ⟨some 2⟩⟩).1.1.getCount 1 = none :=
  ⟨(C1_receive_decrements_then_overwrites (⟨[(1, 1), (2, 2)],
      [(1, (5 : Int)), (2, 70)]⟩ : Heap Int) ⟨some 1, ⟨some 1⟩⟩
      ⟨some 2, ⟨some 2⟩⟩ 1 1 rfl rfl).1,
   (C1_receive_decrements_then_overwrites (⟨[(1, 1), (2, 2)],
      [(1, (5 : Int)), (2, 70)]⟩ : Heap Int) ⟨some 1, ⟨some 1⟩⟩
      ⟨some 2, ⟨some 2⟩⟩ 1 1 rfl rfl).2.1,
   ((C1_receive_decrements_then_overwrites (⟨[(1, 1), (2, 2)],
      [(1, (5 : Int)), (2, 70)]⟩ : Heap Int) ⟨some 1, ⟨some 1⟩⟩
      ⟨some 2, ⟨some 2⟩⟩ 1 1 rfl rfl).2.2.1 (by decide)).1⟩

/-- C2: evaluation at the failing input.  The destination owns payload 1
through counter 1 at value 2 (one other live owner exists) and the
source owns payload 2 through counter 2; the counters differ, so the
claim requires the old counter to be decremented to 1.  After the move
assignment the old counter still holds 2 — the counter holder move
assignment overwrites the reference without decrementing — and the old
payload is still allocated though the destination no longer references
it (a leak). -/
theorem C2_move_assign_leaks_old_counter :
    (memcpy_shared_ptr.assignMove
      (⟨[(1, 2), (2, 1)], [(1, (7 : Int)), (2, 8)]⟩ : Heap Int)
      ⟨some 1, ⟨some 1⟩⟩ ⟨some 2, ⟨some 2⟩⟩).1.getCount 1 = some 2 ∧
    alookup (memcpy_shared_ptr.assignMove
      (⟨[(1, 2), (2, 1)], [(1, (7 : Int)), (2, 8)]⟩ : Heap Int)
      ⟨some 1, ⟨some 1⟩⟩ ⟨some 2, ⟨some 2⟩⟩).1.payloads 1 = some 7 ∧
    (memcpy_shared_ptr.assignMove
      (⟨[(1, 2), (2, 1)], [(1, (7 : Int)), (2, 8)]⟩ : Heap Int)
      ⟨some 1, ⟨some 1⟩⟩ ⟨some 2, ⟨some 2⟩⟩).2.1 = ⟨some 2, ⟨some 2⟩⟩ := by
  decide

/-- C7 scenario, step 0: payload 70 lives at address 1, nothing else. -/
def c7heap0 : Heap Int := ⟨[], [(1, 70)]⟩

/-- C7 scenario, step 1: a shared pointer is constructed over the
payload. -/
def c7make : Heap Int × memcpy_shared_ptr :=
  memcpy_shared_ptr.ctorFromRaw c7heap0 (some 1)

/-- C7 scenario, step 2: the pointer sends its image into a buffer with
a succeeding copy function. -/
def c7send : (Heap Int × memcpy_shared_ptr) × Bool × Option memcpy_shared_ptr :=
  memcpy_shared_ptr.memcpy_send c7make.1 c7make.2 true

/-- C7 scenario, step 3: a default constructed instance receives the
buffered image with a succeeding copy function. -/
def c7recv : (Heap Int × memcpy_shared_ptr) × Bool :=
  memcpy_shared_ptr.memcpy_receive c7send.1.1 memcpy_shared_ptr.ctorDefault
    true (c7send.2.2.getD memcpy_shared_ptr.ctorDefault)

/-- C7: over payload value 70, a fresh shared pointer has count 1; a
successful send raises its count to 2; a successful receive of that
image into a second, default constructed instance yields a second
instance reporting count 2 whose payload address holds 70, while the
first instance is unchanged — same struct, count still 2, payload still
70.  The matched send and receive pair added exactly one owner. -/
theorem C7_send_receive_round_trip :
    memcpy_shared_ptr.get_count c7make.1 c7make.2 = 1 ∧
    c7send.2.1 = true ∧
    memcpy_shared_ptr.get_count c7send.1.1 c7send.1.2 = 2 ∧
    c7recv.2 = true ∧
    memcpy_shared_ptr.get_count c7recv.1.1 c7recv.1.2 = 2 ∧
    c7recv.1.2.get = some 1 ∧
    alookup c7recv.1.1.payloads 1 = some 70 ∧
    c7send.1.2 = c7make.2 ∧
    memcpy_shared_ptr.get_count c7recv.1.1 c7make.2 = 2 ∧
    c7make.2.get = some 1 := by
  decide
